import Mathlib

/-!
Shallow embedding of the FAO production-analysis library
(`src/config.py`, `src/validators.py`, `src/analysis_utils.py`).

Tables are lists of records; pandas group-by-sum is modelled by
`groupSum`; Python dynamic values handed to the validators are modelled
by `PyVal`; a raised exception is an `Err` value returned through
`Option`/`Except`.  `Value` cells are embedded as exact rationals.
-/

namespace FAO

/-- A Python value, as far as the validators inspect one: an integer, a
string, a list, or anything else (not iterable, not an int/str/list). -/
inductive PyVal where
  | int (n : Int)
  | str (s : String)
  | list (xs : List PyVal)
  | other
deriving Repr

/-- A raised Python exception.  `countriesMissing` carries the list of
names that `validate_countries` reports in its `ValueError` message. -/
inductive Err where
  | typeError (msg : String)
  | valueError (msg : String)
  | countriesMissing (missing : List String)
  | indexError
deriving DecidableEq, Repr

/-- `config.START_YEAR`. -/
def START_YEAR : Int := 1961

/-- `config.END_YEAR`. -/
def END_YEAR : Int := 2023

/-- `config.COUNTRY_GROUPS`. -/
def COUNTRY_GROUPS : List String :=
  ["Africa", "Americas", "Asia", "Australia and New Zealand",
   "Caribbean", "Central America", "Central Asia", "Eastern Africa",
   "Eastern Asia", "Eastern Europe", "Europe", "European Union (27)",
   "Land Locked Developing Countries (LLDCs)",
   "Least Developed Countries (LDCs)",
   "Low Income Food Deficit Countries (LIFDCs)", "Melanesia",
   "Micronesia", "Middle Africa",
   "Net Food Importing Developing Countries (NFIDCs)",
   "Northern Africa", "Northern America", "Northern Europe",
   "Oceania", "Polynesia", "Small Island Developing States (SIDS)",
   "South America", "South-eastern Asia", "Southern Africa",
   "Southern Asia", "Southern Europe", "Western Africa",
   "Western Asia", "Western Europe", "World", "China, mainland"]

/-- `config.FORMER_USSR_COUNTRIES`. -/
def FORMER_USSR_COUNTRIES : List String :=
  ["Uzbekistan", "Kazakhstan", "Belarus", "Azerbaijan",
   "Lithuania", "Tajikistan", "Turkmenistan", "Kyrgyzstan",
   "Republic of Moldova", "Latvia", "Armenia", "Estonia", "Georgia"]

/-- `config.ITEM_GROUPS`. -/
def ITEM_GROUPS : List String :=
  ["Crops, primary", "Live Animals", "Livestock primary",
   "Beef and Buffalo Meat, primary", "Butter and Ghee",
   "Cattle and Buffaloes", "Cereals, primary", "Cheese (All Kinds)",
   "Citrus Fruit, Total", "Crops Processed", "Eggs Primary",
   "Evaporated & Condensed Milk", "Fibre Crops Primary",
   "Fibre Crops, Fibre Equivalent", "Fruit Primary",
   "Hides and skins, primary", "Livestock processed", "Meat, Poultry",
   "Meat, Total", "Milk, Total", "Oilcrops Primary",
   "Oilcrops, Cake Equivalent", "Oilcrops, Oil Equivalent",
   "Poultry Birds", "Pulses, Total", "Roots and Tubers, Total",
   "Sheep and Goat Meat", "Sheep and Goats",
   "Skim Milk & Buttermilk, Dry", "Sugar Crops Primary",
   "Treenuts, Total", "Vegetables Primary"]

/-- One row of a production table: columns Area, Item, Element, Year,
Unit, Value. -/
structure Record where
  area : String
  item : String
  element : String
  year : Int
  unit : String
  value : ℚ
deriving DecidableEq, Repr

/-- The distinct elements of a list in first-occurrence order
(pandas `unique()`; also the row set a `groupby` produces — pandas
sorts the group keys, but nothing proved below depends on the key
order). -/
def unique_keys {κ : Type} [DecidableEq κ] : List κ → List κ
  | [] => []
  | k :: ks => k :: (unique_keys ks).filter (fun k2 => !(decide (k2 = k)))

/-- `validate_period`, with the in-place mutation of the caller's list
made explicit: the first component of the result is the state of the
caller's `period` object after the call (the clamping assignments
`period[0] = 1961` / `period[1] = 2023` mutate it even when the final
start/end comparison raises), the second is the returned value or the
raised exception. -/
def validate_period_state (period : PyVal) : PyVal × Except Err PyVal :=
  match period with
  | .list [x0, x1] =>
    match x0, x1 with
    | .int a, .int b =>
      let a' : Int := if a < START_YEAR then 1961 else a
      let b' : Int := if b > END_YEAR then 2023 else b
      let st : PyVal := .list [.int a', .int b']
      if a' > b' then
        (st, .error (.valueError "End year is before start year"))
      else
        (st, .ok st)
    | _, _ =>
      (period, .error (.typeError "Start and End year must be integers"))
  | .list _ =>
    (period, .error (.valueError "Period must be a list of two integers"))
  | _ =>
    (period, .error (.typeError "Period must be a list of two integers"))

/-- The value returned by `validate_period` (or the exception raised),
for a caller that passes a Python list of integers, extracted as an
integer pair. -/
def validate_period_list (l : List Int) : Except Err (Int × Int) :=
  match (validate_period_state (.list (l.map PyVal.int))).2 with
  | .error e => .error e
  | .ok (.list [.int a, .int b]) => .ok (a, b)
  | .ok _ => .error (.typeError "Period must be a list of two integers")

/-- `validate_product` for a caller that passes a string (the
`isinstance(product, str)` branch cannot fire). -/
def validate_product (product : String) (df : List Record) : Option Err :=
  if (unique_keys (df.map Record.item)).contains product then
    none
  else
    some (.valueError (product ++ " is not in available products"))

/-- `validate_top_n` for a caller that passes an integer (the
`isinstance(top_n, int)` branch cannot fire).
`number_of_countries = len(set(df["Area"]) - set(COUNTRY_GROUPS))`;
`top_n in range(1, number_of_countries + 1)` means
`1 <= top_n <= number_of_countries`. -/
def validate_top_n (top_n : Int) (df : List Record) : Option Err :=
  let number_of_countries :=
    ((unique_keys (df.map Record.area)).filter
      (fun a => !(COUNTRY_GROUPS.contains a))).length
  if 1 ≤ top_n ∧ top_n ≤ (number_of_countries : Int) then
    none
  else
    some (.valueError "top_n out of range")

/-- Python `iter(x)`: succeeds on lists and on strings (a string
iterates as its characters, each a one-character string); fails on
integers and other non-iterables. -/
def pyIter : PyVal → Option (List PyVal)
  | .str s => some (s.data.map (fun c => .str (String.singleton c)))
  | .list xs => some xs
  | _ => none

/-- Python `isinstance(x, str)`. -/
def pyIsStr : PyVal → Bool
  | .str _ => true
  | _ => false

/-- The underlying string of a `PyVal.str` (only applied to strings). -/
def pyStrVal : PyVal → String
  | .str s => s
  | _ => ""

/-- `validate_countries`: `iter` check, then the all-strings check, then
membership of every element in `df["Area"].unique()`, reporting every
missing name. -/
def validate_countries (countries : PyVal) (df : List Record) : Option Err :=
  match pyIter countries with
  | none => some (.typeError "Countries must be an iterable!")
  | some items =>
    let countries_not_string := items.filter (fun c => !(pyIsStr c))
    if !countries_not_string.isEmpty then
      some (.typeError "All countries must be strings")
    else
      let available_countries := unique_keys (df.map Record.area)
      let missing_countries :=
        items.filter (fun c => !(available_countries.contains (pyStrVal c)))
      if !missing_countries.isEmpty then
        some (.countriesMissing (missing_countries.map pyStrVal))
      else
        none

/-- pandas `groupby(key)[value].sum()`: one output row per distinct key,
carrying the sum of `val` over the input rows with that key. -/
def groupSum {α κ : Type} [DecidableEq κ] (key : α → κ) (val : α → ℚ)
    (xs : List α) : List (κ × ℚ) :=
  (unique_keys (xs.map key)).map
    (fun k => (k, ((xs.filter (fun x => decide (key x = k))).map val).sum))

/-- `merge_former_ussr_countries`: group the rows of former-USSR
countries by (Item, Element, Year, Unit) summing Value, relabel their
Area, and concatenate after the untouched remaining rows. -/
def merge_former_ussr_countries (df_prod : List Record) : List Record :=
  let df_prod_ussr :=
    (groupSum (fun r => (r.item, r.element, r.year, r.unit)) Record.value
      (df_prod.filter (fun r => FORMER_USSR_COUNTRIES.contains r.area))).map
      (fun kv =>
        { area := "Former USSR Countries", item := kv.1.1,
          element := kv.1.2.1, year := kv.1.2.2.1, unit := kv.1.2.2.2,
          value := kv.2 })
  let df_no_ussr :=
    df_prod.filter (fun r => !(FORMER_USSR_COUNTRIES.contains r.area))
  df_no_ussr ++ df_prod_ussr

/-- The combined boolean mask built by `get_historical_production`:
year within the (validated, clamped) period; area in `countries` when
given, else area not a country group; item equal to `product` when
given. -/
def common_mask (countries : Option (List String)) (p : Int × Int)
    (product : Option String) (r : Record) : Bool :=
  (decide (p.1 ≤ r.year) && decide (r.year ≤ p.2)) &&
  (match countries with
   | some cs => cs.contains r.area
   | none => !(COUNTRY_GROUPS.contains r.area)) &&
  (match product with
   | some pr => decide (r.item = pr)
   | none => true)

/-- A derived (Area, Year) → Value table. -/
abbrev HistTable := List ((String × Int) × ℚ)

/-- The filter→group→sum body of `get_historical_production` once the
inputs have been validated. -/
def hist_body (df : List Record) (countries : Option (List String))
    (p : Int × Int) (product : Option String) : HistTable :=
  groupSum (fun r => (r.area, r.year)) Record.value
    (df.filter (common_mask countries p product))

/-- `get_historical_production`: validates countries (when given), the
period, and the product (when given), then filters with the common mask
and sums Value grouped by (Area, Year). -/
def get_historical_production (df_prod : List Record)
    (countries : Option (List String) := none)
    (period : List Int := [1961, 2023])
    (product : Option String := none) : Except Err HistTable :=
  match (match countries with
         | some cs => validate_countries (.list (cs.map PyVal.str)) df_prod
         | none => none) with
  | some e => .error e
  | none =>
    match validate_period_list period with
    | .error e => .error e
    | .ok p =>
      match (match product with
             | some pr => validate_product pr df_prod
             | none => none) with
      | some e => .error e
      | none => .ok (hist_body df_prod countries p product)

/-- pandas `Series.rank(ascending=False)` with the default `average`
method, as a rational: the average of the descending-order positions of
the ties of `v` inside `vs`, in closed form
`(number of strictly larger values) + (number of ties + 1) / 2`. -/
def rank_desc_average (v : ℚ) (vs : List ℚ) : ℚ :=
  ((vs.filter (fun w => decide (v < w))).length : ℚ) +
    (((vs.filter (fun w => decide (w = v))).length : ℚ) + 1) / 2

/-- `astype(int)` on a (finite, here nonnegative) float: truncation
toward zero. -/
def py_int_trunc (q : ℚ) : Int :=
  if 0 ≤ q then ⌊q⌋ else -⌊-q⌋

/-- `get_historical_rank`: the historical production rows, each
extended with the rank of its Value among the rows of the same Year
(descending, pandas `average` method, truncated to int). -/
def get_historical_rank (df_prod : List Record)
    (countries : Option (List String) := none)
    (period : List Int := [1961, 2023])
    (product : Option String := none) :
    Except Err (List ((String × Int) × ℚ × Int)) :=
  match get_historical_production df_prod countries period product with
  | .error e => .error e
  | .ok rows =>
    .ok (rows.map (fun kv =>
      let yearVals :=
        (rows.filter (fun kv2 => decide (kv2.1.2 = kv.1.2))).map Prod.snd
      (kv.1, kv.2, py_int_trunc (rank_desc_average kv.2 yearVals))))

/-- Stable insertion of a keyed value into a list sorted by descending
value: the new element goes after every element with a value ≥ its
own. -/
def insert_desc {κ : Type} (x : κ × ℚ) : List (κ × ℚ) → List (κ × ℚ)
  | [] => [x]
  | y :: ys => if y.2 < x.2 then x :: y :: ys else y :: insert_desc x ys

/-- Stable sort by descending value (`sort_values(ascending=False)`,
also the order `nlargest` uses, keeping first occurrences on ties). -/
def sort_desc {κ : Type} : List (κ × ℚ) → List (κ × ℚ)
  | [] => []
  | x :: xs => insert_desc x (sort_desc xs)

/-- `get_top_producers`: validates `top_n` only, then takes the full
default `get_historical_production` table, re-filters it to
[1961, 2023], sums Value per Area, and keeps the `top_n` largest
totals.  The `period` and `product` parameters are accepted but never
read. -/
def get_top_producers (df_prod : List Record)
    (period : List Int := [1961, 2023])
    (product : Option String := none)
    (top_n : Int := 10) : Except Err (List (String × ℚ)) :=
  match validate_top_n top_n df_prod with
  | some e => .error e
  | none =>
    match get_historical_production df_prod with
    | .error e => .error e
    | .ok historical =>
      let historical := historical.filter
        (fun kv => decide (1961 ≤ kv.1.2) && decide (kv.1.2 ≤ 2023))
      let grouped := groupSum (fun kv => kv.1.1) Prod.snd historical
      .ok ((sort_desc grouped).take top_n.toNat)

/-- `get_country_production_items`: validates `[country]` and the
period, then (ignoring the period) filters to the country's rows whose
Item is in `ITEM_GROUPS` and sums Value grouped by (Item, Year). -/
def get_country_production_items (df_prod : List Record) (country : String)
    (period : List Int := [1961, 2023]) :
    Except Err (List ((String × Int) × ℚ)) :=
  match validate_countries (.list [.str country]) df_prod with
  | some e => .error e
  | none =>
    match validate_period_list period with
    | .error e => .error e
    | .ok _ =>
      .ok (groupSum (fun r => (r.item, r.year)) Record.value
        (df_prod.filter
          (fun r => decide (r.area = country) &&
            ITEM_GROUPS.contains r.item)))

/-- Stable insertion sort of naturals, ascending (pandas sorts the
union of two indexes when aligning). -/
def insert_nat (x : Nat) : List Nat → List Nat
  | [] => [x]
  | y :: ys => if x < y then x :: y :: ys else y :: insert_nat x ys

/-- Ascending sort of naturals. -/
def sort_nat : List Nat → List Nat
  | [] => []
  | x :: xs => insert_nat x (sort_nat xs)

/-- pandas division of two float Series indexed by row position:
align on the sorted union of the two indexes; where an index is present
on both sides and the denominator is nonzero the quotient (times 100)
is a finite number, anywhere else the cell is non-finite (NaN from a
one-sided index, inf/NaN from a zero denominator), modelled as
`none`. -/
def aligned_share_div (xs ys : List (Nat × ℚ)) : List (Option ℚ) :=
  let keys := sort_nat (unique_keys ((xs.map Prod.fst) ++ (ys.map Prod.fst)))
  keys.map (fun k =>
    match (xs.filter (fun a => decide (a.1 = k))).head?,
          (ys.filter (fun a => decide (a.1 = k))).head? with
    | some c, some w => if w.2 = 0 then none else some (c.2 / w.2 * 100)
    | _, _ => none)

/-- The share computation of `get_report_country_on_item` for one year:
`(historic_country[Year==year]["Value"] / historic_world[Year==year]["Value"] * 100).values[0]`.
`historic_country` is the country's (Area, Year) table,
`historic_world` the default table further grouped by Year; both carry
the positional RangeIndex that `reset_index` gave them, which is what
the division aligns on.  `.values[0]` on an empty aligned result is an
uncaught `IndexError`; a non-finite cell (missing row on one side, or a
zero world value) is `ok none`.  (The final `round(.., 2)` only
rounds the finite value and is irrelevant to which of these three
outcomes occurs, so it is not modelled.) -/
def get_report_share (df_prod : List Record) (country product : String)
    (year : Int) : Except Err (Option ℚ) :=
  match get_historical_production df_prod (some [country]) [1961, 2023]
      (some product) with
  | .error e => .error e
  | .ok historic_country =>
    match get_historical_production df_prod none [1961, 2023]
        (some product) with
    | .error e => .error e
    | .ok hw0 =>
      let historic_world := groupSum (fun kv => kv.1.2) Prod.snd hw0
      let cpos := (historic_country.enum.filter
        (fun x => decide (x.2.1.2 = year))).map (fun x => (x.1, x.2.2))
      let wpos := (historic_world.enum.filter
        (fun x => decide (x.2.1 = year))).map (fun x => (x.1, x.2.2))
      match (aligned_share_div cpos wpos).head? with
      | none => .error .indexError
      | some v => .ok v

/-! Example tables used by the closed witness and counterexample
theorems. -/

/-- A one-row table: France, Wheat, year 1970, value 10. -/
def df1 : List Record := [⟨"France", "Wheat", "Production", 1970, "t", 10⟩]

/-- A three-row table with a three-way tie: areas A, B, C all produce
value 5 of Wheat in 1961. -/
def df3 : List Record :=
  [⟨"A", "Wheat", "Production", 1961, "t", 5⟩,
   ⟨"B", "Wheat", "Production", 1961, "t", 5⟩,
   ⟨"C", "Wheat", "Production", 1961, "t", 5⟩]

/-- The ranked table `get_historical_rank` computes from `df3`. -/
def ranked3 : List ((String × Int) × ℚ × Int) :=
  [(("A", 1961), 5, 2), (("B", 1961), 5, 2), (("C", 1961), 5, 2)]

/-- A one-row table whose item is a reportable category and whose year
1990 lies outside the period [1970, 1975] used in witnesses. -/
def df10 : List Record :=
  [⟨"France", "Crops, primary", "Production", 1990, "t", 7⟩]

/-- The boolean mask selecting one (item, element, year, unit) slice of
a table. -/
def slice_mask (item element : String) (year : Int) (unit : String)
    (r : Record) : Bool :=
  decide (r.item = item ∧ r.element = element ∧ r.year = year ∧
    r.unit = unit)

/-! Helper lemmas about `unique_keys` and `groupSum`. -/

theorem mem_unique_keys {κ : Type} [DecidableEq κ] (l : List κ) (k : κ) :
    k ∈ unique_keys l ↔ k ∈ l := by
  induction l with
  | nil => simp [unique_keys]
  | cons x xs ih =>
    by_cases hk : k = x
    · simp [unique_keys, hk]
    · simp [unique_keys, List.mem_filter, hk, ih]

theorem nodup_unique_keys {κ : Type} [DecidableEq κ] (l : List κ) :
    (unique_keys l).Nodup := by
  induction l with
  | nil => simp [unique_keys]
  | cons x xs ih =>
    refine List.Nodup.cons ?_ (ih.filter _)
    intro hmem
    have h2 := (List.mem_filter.mp hmem).2
    simp at h2

theorem groupSum_keys {α κ : Type} [DecidableEq κ] (key : α → κ)
    (val : α → ℚ) (xs : List α) :
    (groupSum key val xs).map Prod.fst = unique_keys (xs.map key) := by
  simp [groupSum, List.map_map, Function.comp_def]

theorem exists_mem_groupSum_iff {α κ : Type} [DecidableEq κ] (key : α → κ)
    (val : α → ℚ) (xs : List α) (k : κ) :
    (∃ q, (k, q) ∈ groupSum key val xs) ↔ ∃ x ∈ xs, key x = k := by
  constructor
  · rintro ⟨q, hq⟩
    simp only [groupSum, List.mem_map] at hq
    obtain ⟨k2, hk2, heq⟩ := hq
    have hk2k : k2 = k := congrArg Prod.fst heq
    subst hk2k
    have := (mem_unique_keys _ _).mp hk2
    simpa using this
  · rintro ⟨x, hx, rfl⟩
    refine ⟨((xs.filter (fun x2 => decide (key x2 = key x))).map val).sum, ?_⟩
    simp only [groupSum, List.mem_map]
    exact ⟨key x, (mem_unique_keys _ _).mpr (List.mem_map_of_mem _ hx), rfl⟩

theorem mem_groupSum_val {α κ : Type} [DecidableEq κ] {key : α → κ}
    {val : α → ℚ} {xs : List α} {kv : κ × ℚ}
    (h : kv ∈ groupSum key val xs) :
    kv.2 = ((xs.filter (fun x => decide (key x = kv.1))).map val).sum := by
  simp only [groupSum, List.mem_map] at h
  obtain ⟨k, -, rfl⟩ := h
  rfl

theorem nodup_groupSum_keys {α κ : Type} [DecidableEq κ] (key : α → κ)
    (val : α → ℚ) (xs : List α) :
    ((groupSum key val xs).map Prod.fst).Nodup := by
  rw [groupSum_keys]
  exact nodup_unique_keys _

theorem map_pair_filter_fst_sum {κ : Type} [DecidableEq κ] (ks : List κ)
    (hn : ks.Nodup) (S : κ → ℚ) (k : κ) :
    (((ks.map (fun k2 => (k2, S k2))).filter
      (fun kv => decide (kv.1 = k))).map Prod.snd).sum =
    if k ∈ ks then S k else 0 := by
  induction ks with
  | nil => simp
  | cons x xs ih =>
    have hx : x ∉ xs := (List.nodup_cons.mp hn).1
    have ihx := ih (List.nodup_cons.mp hn).2
    by_cases hk : x = k
    · subst hk
      simp [List.filter_cons, ihx, hx]
    · simp [List.filter_cons, hk, ihx, Ne.symm hk]

theorem groupSum_slice {α κ : Type} [DecidableEq κ] (key : α → κ)
    (val : α → ℚ) (xs : List α) (k : κ) :
    (((groupSum key val xs).filter (fun kv => decide (kv.1 = k))).map
      Prod.snd).sum =
    ((xs.filter (fun x => decide (key x = k))).map val).sum := by
  rw [groupSum, map_pair_filter_fst_sum _ (nodup_unique_keys _)]
  by_cases hk : k ∈ unique_keys (xs.map key)
  · simp [hk]
  · rw [if_neg hk]
    rw [mem_unique_keys, List.mem_map] at hk
    push_neg at hk
    have hfil : xs.filter (fun x => decide (key x = k)) = [] := by
      rw [List.filter_eq_nil_iff]
      intro a ha
      simpa using hk a ha
    simp [hfil]

theorem sum_map_filter_add_not {α : Type} (p : α → Bool) (val : α → ℚ)
    (xs : List α) :
    ((xs.filter p).map val).sum +
      ((xs.filter (fun x => !(p x))).map val).sum = (xs.map val).sum := by
  induction xs with
  | nil => simp
  | cons x xs ih =>
    by_cases hx : p x <;>
      simp only [List.filter_cons, hx, Bool.not_true, Bool.not_false,
        if_pos, if_neg, Bool.false_eq_true, not_false_iff, ite_true,
        ite_false, List.map_cons, List.sum_cons, List.map, ← ih] <;>
      ring

/-- pandas `average`-method rank truncated to int, in integer
arithmetic: (count of strictly larger values) +
((count of ties + 1) integer-divided by 2). -/
theorem py_int_trunc_rank (v : ℚ) (vs : List ℚ) :
    py_int_trunc (rank_desc_average v vs) =
      ((vs.filter (fun w => decide (v < w))).length : Int) +
        (((vs.filter (fun w => decide (w = v))).length : Int) + 1) / 2 := by
  set g : ℕ := (vs.filter (fun w => decide (v < w))).length with hg
  set e : ℕ := (vs.filter (fun w => decide (w = v))).length with he
  have hval : rank_desc_average v vs = (g : ℚ) + ((e : ℚ) + 1) / 2 := rfl
  have hpos : (0:ℚ) ≤ rank_desc_average v vs := by
    rw [hval]; positivity
  have h2 : (g : ℚ) + ((e : ℚ) + 1) / 2 =
      ((g : ℤ) : ℚ) + (((e : ℕ) + 1 : ℤ) : ℚ) / ((2 : ℕ) : ℚ) := by
    push_cast; ring
  rw [py_int_trunc, if_pos hpos, hval, h2, Int.floor_int_add,
    Rat.floor_intCast_div_natCast]
  push_cast
  ring

/-- Inversion of a successful `get_historical_production` call: the
period validated (to the clamped pair `p`) and the result is the
filter→group→sum body at `p`. -/
theorem get_historical_production_ok {df : List Record}
    {countries : Option (List String)} {period : List Int}
    {product : Option String} {rows : HistTable}
    (h : get_historical_production df countries period product = .ok rows) :
    ∃ p, validate_period_list period = .ok p ∧
      rows = hist_body df countries p product := by
  unfold get_historical_production at h
  split at h
  · exact absurd h (by simp)
  · split at h
    · exact absurd h (by simp)
    · split at h
      · exact absurd h (by simp)
      · rename_i p hp e he
        exact ⟨p, by simp_all⟩

/-- `validate_period_state` on a well-typed two-integer list, written
out: clamp the start up to 1961 when below it, clamp the end down to
2023 when above it, then decide the error on the clamped pair. -/
theorem validate_period_state_int_pair (a b : Int) :
    validate_period_state (.list [.int a, .int b]) =
      (.list [.int (if a < 1961 then 1961 else a),
              .int (if b > 2023 then 2023 else b)],
       if (if a < 1961 then (1961:Int) else a) >
           (if b > 2023 then (2023:Int) else b) then
         .error (.valueError "End year is before start year")
       else
         .ok (.list [.int (if a < 1961 then 1961 else a),
                     .int (if b > 2023 then 2023 else b)])) := by
  simp only [validate_period_state, START_YEAR, END_YEAR]
  split <;> split <;> (split <;> simp_all)

/-- C7: whenever `validate_period` returns without raising, the
returned pair is a two-integer list with 1961 ≤ start ≤ end ≤ 2023, and
validating the returned pair again returns it unchanged
(`validate_period(validate_period(p)) == validate_period(p)`). -/
theorem validate_period_ok_range_idempotent (p q : PyVal)
    (h : (validate_period_state p).2 = .ok q) :
    (∃ a b : Int, q = .list [.int a, .int b] ∧
      1961 ≤ a ∧ a ≤ b ∧ b ≤ 2023) ∧
    (validate_period_state q).2 = .ok q := by
  rcases p with n | s | xs | _
  · simp [validate_period_state] at h
  · simp [validate_period_state] at h
  · rcases xs with _ | ⟨x0, xs⟩
    · simp [validate_period_state] at h
    · rcases xs with _ | ⟨x1, xs⟩
      · simp [validate_period_state] at h
      · rcases xs with _ | ⟨x2, xs⟩
        · rcases x0 with a | s0 | l0 | _
          · rcases x1 with b | s1 | l1 | _
            · rw [validate_period_state_int_pair] at h
              set a2 : Int := if a < 1961 then 1961 else a with ha2
              set b2 : Int := if b > 2023 then 2023 else b with hb2
              have h1 : 1961 ≤ a2 := by rw [ha2]; split_ifs <;> omega
              have h2 : b2 ≤ 2023 := by rw [hb2]; split_ifs <;> omega
              by_cases hab : a2 > b2
              · rw [if_pos hab] at h
                simp at h
              · rw [if_neg hab] at h
                simp only [Except.ok.injEq] at h
                subst h
                refine ⟨⟨a2, b2, rfl, h1, by omega, h2⟩, ?_⟩
                rw [validate_period_state_int_pair]
                rw [if_neg (show ¬ a2 < 1961 by omega),
                  if_neg (show ¬ b2 > 2023 by omega)]
                rw [if_neg (by omega)]
            · simp [validate_period_state] at h
            · simp [validate_period_state] at h
            · simp [validate_period_state] at h
          · simp [validate_period_state] at h
          · simp [validate_period_state] at h
          · simp [validate_period_state] at h
        · simp [validate_period_state] at h
  · simp [validate_period_state] at h

/-- Witness for C7 at the concrete period `[1940, 2030]`, which
validates to `[1961, 2023]`. -/
theorem validate_period_ok_range_idempotent_witness :
    (validate_period_state (.list [.int 1940, .int 2030])).2 =
      .ok (.list [.int 1961, .int 2023]) ∧
    ((∃ a b : Int,
        (PyVal.list [.int 1961, .int 2023]) = .list [.int a, .int b] ∧
        1961 ≤ a ∧ a ≤ b ∧ b ≤ 2023) ∧
      (validate_period_state (.list [.int 1961, .int 2023])).2 =
        .ok (.list [.int 1961, .int 2023])) :=
  ⟨rfl, validate_period_ok_range_idempotent (.list [.int 1940, .int 2030])
    (.list [.int 1961, .int 2023]) rfl⟩

/-- C8 counterexample at the period `[1940, 1950]`: the claimed
clamping policy (each component below 1961 forced to 1961 and above
2023 forced to 2023) would mutate the pair to `[1961, 1961]` and
succeed; the code only clamps the start upward, leaves the end at
1950, and raises the `ValueError`. -/
theorem validate_period_symmetric_clamp_false :
    (validate_period_state (.list [.int 1940, .int 1950])).1 ≠
      .list [.int 1961, .int 1961] ∧
    (validate_period_state (.list [.int 1940, .int 1950])).2 =
      .error (.valueError "End year is before start year") := by
  constructor
  · intro hcl
    simp [validate_period_state, START_YEAR, END_YEAR] at hcl
  · rfl

/-- C8 (amended): for a well-typed period, only a start below 1961 is
forced to 1961 (`max`) and only an end above 2023 is forced to 2023
(`min`); the start/end comparison is decided on the clamped values; and
the caller's pair observably holds the clamped values whether or not
the `ValueError` is raised. -/
theorem validate_period_clamp_before_check_mutating (a b : Int) :
    validate_period_state (.list [.int a, .int b]) =
      (.list [.int (max a 1961), .int (min b 2023)],
       if max a 1961 ≤ min b 2023 then
         .ok (.list [.int (max a 1961), .int (min b 2023)])
       else
         .error (.valueError "End year is before start year")) := by
  rw [validate_period_state_int_pair]
  have h1 : (if a < 1961 then (1961:Int) else a) = max a 1961 := by
    split_ifs <;> omega
  have h2 : (if b > 2023 then (2023:Int) else b) = min b 2023 := by
    split_ifs <;> omega
  rw [h1, h2]
  by_cases h3 : max a 1961 > min b 2023
  · rw [if_pos h3, if_neg (by omega)]
  · rw [if_neg h3, if_pos (by omega)]

/-- Characters mapped into one-character `PyVal` strings all pass the
`isinstance(str)` filter. -/
theorem filter_not_isStr_map_str (l : List Char) :
    (l.map (fun c => PyVal.str (String.singleton c))).filter
      (fun c => !(pyIsStr c)) = [] := by
  induction l with
  | nil => rfl
  | cons c l ih => simp [List.filter_cons, pyIsStr, ih]

/-- Filtering mapped one-character strings by availability commutes
with the map. -/
theorem filter_contains_map_str (l : List Char) (U : List String) :
    (l.map (fun c => PyVal.str (String.singleton c))).filter
      (fun c => !(U.contains (pyStrVal c))) =
    (l.filter (fun c => !(U.contains (String.singleton c)))).map
      (fun c => PyVal.str (String.singleton c)) := by
  induction l with
  | nil => rfl
  | cons c l ih =>
    have hps : pyStrVal (PyVal.str (String.singleton c)) =
        String.singleton c := rfl
    simp only [List.map_cons, List.filter_cons, hps]
    cases hc : U.contains (String.singleton c)
    · rw [if_pos (by rfl), if_pos (by rfl), List.map_cons, ih]
    · rw [if_neg (by simp), if_neg (by simp), ih]

/-- Reading the string back out of mapped one-character strings. -/
theorem map_pyStrVal_map_str (l : List Char) :
    (l.map (fun c => PyVal.str (String.singleton c))).map pyStrVal =
      l.map String.singleton := by
  simp [List.map_map, Function.comp_def, pyStrVal]

/-- `isEmpty` is invariant under `map`. -/
theorem isEmpty_map {A B : Type} (f : A -> B) (l : List A) :
    (l.map f).isEmpty = l.isEmpty := by
  cases l <;> rfl

/-- C9: `validate_countries` on a plain string does not raise the
iterability `TypeError`: the string iterates as its characters, each a
one-character string that passes the `isinstance(str)` check, and the
call returns `None` when every character is an available area name,
else the `ValueError` listing exactly the characters that are not area
names. -/
theorem validate_countries_string_checks_characters (s : String)
    (df : List Record) :
    validate_countries (.str s) df =
      (let missing := s.data.filter
          (fun c => !((unique_keys (df.map Record.area)).contains
            (String.singleton c)));
       if missing.isEmpty then none
       else some (.countriesMissing (missing.map String.singleton))) := by
  simp only [validate_countries, pyIter]
  rw [filter_not_isStr_map_str, filter_contains_map_str,
    map_pyStrVal_map_str, isEmpty_map]
  cases hm : (s.data.filter
      (fun c => !((unique_keys (List.map Record.area df)).contains
        (String.singleton c)))).isEmpty <;>
    simp [hm]

/-- C1: a successful `get_historical_production` call returns exactly
the grouped sums of Value by (Area, Year) over the records passing the
common filter (at the validated, clamped period): a key (area, year)
appears iff at least one record matches, each row carries the sum of
the matching records' values, and keys are not duplicated (in
particular nothing is zero-filled). -/
theorem get_historical_production_grouped_sums (df : List Record)
    (countries : Option (List String)) (period : List Int)
    (product : Option String) (rows : HistTable)
    (h : get_historical_production df countries period product = .ok rows) :
    ∃ p, validate_period_list period = .ok p ∧
      (∀ a y, (∃ q, ((a, y), q) ∈ rows) ↔
        ∃ r ∈ df, common_mask countries p product r = true ∧
          r.area = a ∧ r.year = y) ∧
      (∀ kv ∈ rows,
        kv.2 = (((df.filter (common_mask countries p product)).filter
          (fun r => decide ((r.area, r.year) = kv.1))).map
            Record.value).sum) ∧
      (rows.map Prod.fst).Nodup := by
  obtain ⟨p, hp, hrows⟩ := get_historical_production_ok h
  subst hrows
  refine ⟨p, hp, ?_, ?_, ?_⟩
  · intro a y
    rw [hist_body, exists_mem_groupSum_iff]
    constructor
    · rintro ⟨r, hr, hkey⟩
      obtain ⟨hrdf, hmask⟩ := List.mem_filter.mp hr
      exact ⟨r, hrdf, hmask, congrArg Prod.fst hkey, congrArg Prod.snd hkey⟩
    · rintro ⟨r, hrdf, hmask, ha, hy⟩
      exact ⟨r, List.mem_filter.mpr ⟨hrdf, hmask⟩, by rw [ha, hy]⟩
  · intro kv hkv
    exact mem_groupSum_val hkv
  · exact nodup_groupSum_keys _ _ _

/-- Evaluation of the default `get_historical_production` call on the
one-row table `df1`. -/
theorem get_historical_production_df1 :
    get_historical_production df1 none [1961, 2023] none =
      .ok [(("France", 1970), 10)] := by
  simp [get_historical_production, validate_period_list,
    validate_period_state, START_YEAR, END_YEAR, hist_body, groupSum,
    common_mask, df1, COUNTRY_GROUPS, unique_keys]

/-- Witness for C1 on the concrete table `df1`. -/
theorem get_historical_production_grouped_sums_witness :
    get_historical_production df1 none [1961, 2023] none =
      .ok [(("France", 1970), 10)] ∧
    (∃ p, validate_period_list [1961, 2023] = .ok p ∧
      (∀ a y, (∃ q, ((a, y), q) ∈ ([(("France", 1970), 10)] : HistTable)) ↔
        ∃ r ∈ df1, common_mask none p none r = true ∧
          r.area = a ∧ r.year = y) ∧
      (∀ kv ∈ ([(("France", 1970), 10)] : HistTable),
        kv.2 = (((df1.filter (common_mask none p none)).filter
          (fun r => decide ((r.area, r.year) = kv.1))).map
            Record.value).sum) ∧
      (([(("France", 1970), 10)] : HistTable).map Prod.fst).Nodup) :=
  ⟨get_historical_production_df1,
   get_historical_production_grouped_sums df1 none [1961, 2023] none _
     get_historical_production_df1⟩

/-- Inversion of a successful `get_country_production_items` call: the
validations passed and the result is the period-independent
filter→group→sum body. -/
theorem get_country_production_items_ok {df : List Record}
    {country : String} {period : List Int}
    {rows : List ((String × Int) × ℚ)}
    (h : get_country_production_items df country period = .ok rows) :
    rows = groupSum (fun r => (r.item, r.year)) Record.value
      (df.filter (fun r => decide (r.area = country) &&
        ITEM_GROUPS.contains r.item)) := by
  unfold get_country_production_items at h
  split at h
  · exact absurd h (by simp)
  · split at h
    · exact absurd h (by simp)
    · simp_all

/-- C10: `get_country_production_items` never uses its (validated)
period for filtering: two calls with different accepted periods return
the same table, whose keys are exactly the (item, year) pairs — over
all years in the data, also outside the period — of the country's
records with item in `ITEM_GROUPS`, each carrying the grouped sum. -/
theorem get_country_production_items_ignores_period (df : List Record)
    (country : String) (p1 p2 : List Int)
    (r1 r2 : List ((String × Int) × ℚ))
    (h1 : get_country_production_items df country p1 = .ok r1)
    (h2 : get_country_production_items df country p2 = .ok r2) :
    r1 = r2 ∧
    (∀ it y, (∃ q, ((it, y), q) ∈ r1) ↔
      ∃ r ∈ df, r.area = country ∧ ITEM_GROUPS.contains r.item = true ∧
        r.item = it ∧ r.year = y) ∧
    (∀ kv ∈ r1,
      kv.2 = (((df.filter (fun r => decide (r.area = country) &&
          ITEM_GROUPS.contains r.item)).filter
        (fun r => decide ((r.item, r.year) = kv.1))).map
          Record.value).sum) := by
  have e1 := get_country_production_items_ok h1
  have e2 := get_country_production_items_ok h2
  subst e1
  refine ⟨e2.symm, ?_, ?_⟩
  · intro it y
    rw [exists_mem_groupSum_iff]
    constructor
    · rintro ⟨r, hr, hkey⟩
      obtain ⟨hrdf, hmask⟩ := List.mem_filter.mp hr
      obtain ⟨harea, hitem⟩ := Bool.and_eq_true .. ▸ hmask
      exact ⟨r, hrdf, of_decide_eq_true harea, hitem,
        congrArg Prod.fst hkey, congrArg Prod.snd hkey⟩
    · rintro ⟨r, hrdf, harea, hitem, hit, hy⟩
      refine ⟨r, List.mem_filter.mpr ⟨hrdf, ?_⟩, by rw [hit, hy]⟩
      rw [Bool.and_eq_true, decide_eq_true_eq]
      exact ⟨harea, hitem⟩
  · intro kv hkv
    exact mem_groupSum_val hkv

/-- Evaluation of `get_country_production_items` on `df10` with the
full period. -/
theorem get_country_production_items_df10_full :
    get_country_production_items df10 "France" [1961, 2023] =
      .ok [(("Crops, primary", 1990), 7)] := by
  simp [get_country_production_items, validate_countries, pyIter,
    pyIsStr, pyStrVal, validate_period_list, validate_period_state,
    START_YEAR, END_YEAR, groupSum, df10, ITEM_GROUPS, unique_keys]

/-- Evaluation of `get_country_production_items` on `df10` with the
period [1970, 1975], which excludes the data year 1990. -/
theorem get_country_production_items_df10_narrow :
    get_country_production_items df10 "France" [1970, 1975] =
      .ok [(("Crops, primary", 1990), 7)] := by
  simp [get_country_production_items, validate_countries, pyIter,
    pyIsStr, pyStrVal, validate_period_list, validate_period_state,
    START_YEAR, END_YEAR, groupSum, df10, ITEM_GROUPS, unique_keys]

/-- Witness for C10: the periods [1961, 2023] and [1970, 1975] give the
same result on `df10`, containing the year 1990 outside [1970, 1975]. -/
theorem get_country_production_items_ignores_period_witness :
    get_country_production_items df10 "France" [1961, 2023] =
      .ok [(("Crops, primary", 1990), 7)] ∧
    get_country_production_items df10 "France" [1970, 1975] =
      .ok [(("Crops, primary", 1990), 7)] ∧
    (([(("Crops, primary", 1990), 7)] : HistTable) =
        ([(("Crops, primary", 1990), 7)] : HistTable) ∧
      (∀ it y, (∃ q, ((it, y), q) ∈
          ([(("Crops, primary", 1990), 7)] : HistTable)) ↔
        ∃ r ∈ df10, r.area = "France" ∧
          ITEM_GROUPS.contains r.item = true ∧
          r.item = it ∧ r.year = y) ∧
      (∀ kv ∈ ([(("Crops, primary", 1990), 7)] : HistTable),
        kv.2 = (((df10.filter (fun r => decide (r.area = "France") &&
            ITEM_GROUPS.contains r.item)).filter
          (fun r => decide ((r.item, r.year) = kv.1))).map
            Record.value).sum)) :=
  ⟨get_country_production_items_df10_full,
   get_country_production_items_df10_narrow,
   get_country_production_items_ignores_period df10 "France"
     [1961, 2023] [1970, 1975] _ _
     get_country_production_items_df10_full
     get_country_production_items_df10_narrow⟩

/-- The slice mask applied to a rebuilt "Former USSR Countries" record
is the key test on the group key. -/
theorem slice_mask_rebuilt (item element : String) (year : Int)
    (unit : String) (kv : (String × String × Int × String) × ℚ) :
    slice_mask item element year unit
      { area := "Former USSR Countries", item := kv.1.1,
        element := kv.1.2.1, year := kv.1.2.2.1, unit := kv.1.2.2.2,
        value := kv.2 } =
    decide (kv.1 = (item, element, year, unit)) := by
  apply decide_eq_decide.mpr
  simp [Prod.ext_iff]

/-- The slice mask coincides with the (item, element, year, unit) group
key test on any record. -/
theorem slice_mask_as_key (item element : String) (year : Int)
    (unit : String) (r : Record) :
    slice_mask item element year unit r =
      decide ((r.item, r.element, r.year, r.unit) =
        (item, element, year, unit)) := by
  apply decide_eq_decide.mpr
  simp [Prod.ext_iff]

/-- Two successive filters commute. -/
theorem filter_swap {α : Type} (p q : α → Bool) (l : List α) :
    (l.filter p).filter q = (l.filter q).filter p := by
  rw [List.filter_filter, List.filter_filter]
  exact List.filter_congr (fun x _ => Bool.and_comm _ _)

/-- C6: `merge_former_ussr_countries` preserves the sum of Value over
every (item, element, year, unit) slice (hence also the total global
value), in exact arithmetic. -/
theorem merge_former_ussr_preserves_slice_sums (df : List Record)
    (item element : String) (year : Int) (unit : String) :
    (((merge_former_ussr_countries df).filter
      (slice_mask item element year unit)).map Record.value).sum =
    ((df.filter (slice_mask item element year unit)).map
      Record.value).sum := by
  unfold merge_former_ussr_countries
  rw [List.filter_append, List.map_append, List.sum_append]
  have hussr :
      ((((groupSum (fun r => (r.item, r.element, r.year, r.unit))
          Record.value
          (df.filter (fun r => FORMER_USSR_COUNTRIES.contains r.area))).map
        (fun kv =>
          ({ area := "Former USSR Countries", item := kv.1.1,
             element := kv.1.2.1, year := kv.1.2.2.1, unit := kv.1.2.2.2,
             value := kv.2 } : Record))).filter
        (slice_mask item element year unit)).map Record.value).sum =
      (((df.filter
          (fun r => FORMER_USSR_COUNTRIES.contains r.area)).filter
        (slice_mask item element year unit)).map Record.value).sum := by
    rw [List.filter_map, List.map_map]
    have hpred : ((slice_mask item element year unit) ∘
        (fun kv : (String × String × Int × String) × ℚ =>
          ({ area := "Former USSR Countries", item := kv.1.1,
             element := kv.1.2.1, year := kv.1.2.2.1, unit := kv.1.2.2.2,
             value := kv.2 } : Record))) =
        (fun kv : (String × String × Int × String) × ℚ =>
          decide (kv.1 = (item, element, year, unit))) := by
      funext kv
      exact slice_mask_rebuilt item element year unit kv
    have hval : (Record.value ∘
        (fun kv : (String × String × Int × String) × ℚ =>
          ({ area := "Former USSR Countries", item := kv.1.1,
             element := kv.1.2.1, year := kv.1.2.2.1, unit := kv.1.2.2.2,
             value := kv.2 } : Record))) =
        (Prod.snd : (String × String × Int × String) × ℚ → ℚ) := rfl
    rw [hpred, hval, groupSum_slice]
    exact congrArg (fun l => (List.map Record.value l).sum)
      (List.filter_congr
        (fun x _ => (slice_mask_as_key item element year unit x).symm))
  rw [hussr, filter_swap _ (slice_mask item element year unit),
    filter_swap _ (slice_mask item element year unit), add_comm]
  exact sum_map_filter_add_not
    (fun r => FORMER_USSR_COUNTRIES.contains r.area) Record.value
    (df.filter (slice_mask item element year unit))

/-- C3: `get_top_producers` never reads its `period` and `product`
arguments (valid or not): any two calls on the same table and `top_n`
agree, and when `top_n` passes validation the result is the `top_n`
largest per-area sums of the default (individual countries, full
period) historical production, re-filtered to [1961, 2023]. -/
theorem get_top_producers_ignores_period_product (df : List Record)
    (p1 p2 : List Int) (pr1 pr2 : Option String) (n : Int) :
    get_top_producers df p1 pr1 n = get_top_producers df p2 pr2 n ∧
    (validate_top_n n df = none →
      get_top_producers df p1 pr1 n =
        .ok ((sort_desc (groupSum (fun kv => kv.1.1) Prod.snd
          ((hist_body df none (1961, 2023) none).filter
            (fun kv => decide (1961 ≤ kv.1.2) &&
              decide (kv.1.2 ≤ 2023))))).take n.toNat)) := by
  constructor
  · rfl
  · intro hv
    unfold get_top_producers
    rw [hv]
    rfl

/-- Witness for C3: an out-of-order period and an unknown product still
produce the full-period answer on `df1`. -/
theorem get_top_producers_ignores_period_product_witness :
    validate_top_n 1 df1 = none ∧
    get_top_producers df1 [9999, 1] (some "NotAProduct") 1 =
      .ok ((sort_desc (groupSum (fun kv => kv.1.1) Prod.snd
        ((hist_body df1 none (1961, 2023) none).filter
          (fun kv => decide (1961 ≤ kv.1.2) &&
            decide (kv.1.2 ≤ 2023))))).take (1 : Int).toNat) :=
  ⟨rfl,
   (get_top_producers_ignores_period_product df1 [9999, 1] [0, 0]
     (some "NotAProduct") none 1).2 rfl⟩

/-- C5 counterexample: with the invalid period [2000, 1990] (start >
end, which `validate_period` rejects) and a valid `top_n`,
`get_top_producers` still returns a result — period and product are
never validated there. -/
theorem get_top_producers_accepts_invalid_period :
    get_top_producers df1 [2000, 1990] none 1 = .ok [("France", 10)] ∧
    validate_period_list [2000, 1990] =
      .error (.valueError "End year is before start year") := by
  constructor
  · simp [get_top_producers, validate_top_n, get_historical_production,
      validate_period_list, validate_period_state, START_YEAR, END_YEAR,
      hist_body, groupSum, common_mask, df1, COUNTRY_GROUPS, unique_keys,
      sort_desc, insert_desc]
  · rfl

/-- C5 (amended): `get_top_producers` validates only `top_n`: the call
raises exactly the `validate_top_n` error when `top_n` is invalid, and
never raises for any `period` or `product` argument. -/
theorem get_top_producers_error_iff_top_n_invalid (df : List Record)
    (period : List Int) (product : Option String) (top_n : Int)
    (e : Err) :
    get_top_producers df period product top_n = .error e ↔
      validate_top_n top_n df = some e := by
  unfold get_top_producers
  cases hv : validate_top_n top_n df with
  | some e2 => simp
  | none =>
    have hget : get_historical_production df =
        .ok (hist_body df none (1961, 2023) none) := rfl
    rw [hget]
    simp

/-- Inversion of a successful `get_historical_rank` call: the
underlying production table and the rank map. -/
theorem get_historical_rank_ok {df : List Record}
    {countries : Option (List String)} {period : List Int}
    {product : Option String}
    {rows : List ((String × Int) × ℚ × Int)}
    (h : get_historical_rank df countries period product = .ok rows) :
    ∃ rows0, get_historical_production df countries period product =
        .ok rows0 ∧
      rows = rows0.map (fun kv =>
        (kv.1, kv.2, py_int_trunc (rank_desc_average kv.2
          ((rows0.filter (fun kv2 => decide (kv2.1.2 = kv.1.2))).map
            Prod.snd)))) := by
  unfold get_historical_rank at h
  split at h
  · exact absurd h (by simp)
  · rename_i rows0 h0
    exact ⟨rows0, h0, by simp_all⟩

/-- Projecting the values of one year's group out of the ranked rows
recovers the values of that year's group in the production rows. -/
theorem ranked_year_values (rows0 : HistTable) (y : Int) :
    ((rows0.map (fun kv =>
        (kv.1, kv.2, py_int_trunc (rank_desc_average kv.2
          ((rows0.filter (fun kv2 => decide (kv2.1.2 = kv.1.2))).map
            Prod.snd))))).filter
      (fun kv2 => decide (kv2.1.2 = y))).map (fun kv2 => kv2.2.1) =
    (rows0.filter (fun kv2 => decide (kv2.1.2 = y))).map Prod.snd := by
  rw [List.filter_map, List.map_map]
  rfl

/-- C2 (amended): in a successful `get_historical_rank` result, every
row's rank is pandas' `average` rank truncated to an integer: (number
of strictly larger values in its year) + ((number of equal values + 1)
integer-divided by 2).  Rows of the same year with equal values share
the same rank, and a row holding the maximum of its year receives rank
1 exactly when at most two rows tie at that maximum (a three-way tie at
the top is ranked 2, not 1). -/
theorem get_historical_rank_truncated_average_rank (df : List Record)
    (countries : Option (List String)) (period : List Int)
    (product : Option String)
    (rows : List ((String × Int) × ℚ × Int))
    (h : get_historical_rank df countries period product = .ok rows) :
    (∀ kv ∈ rows,
      kv.2.2 =
        (((((rows.filter (fun kv2 => decide (kv2.1.2 = kv.1.2))).map
            (fun kv2 => kv2.2.1)).filter
          (fun w => decide (kv.2.1 < w))).length : Int)) +
        (((((rows.filter (fun kv2 => decide (kv2.1.2 = kv.1.2))).map
            (fun kv2 => kv2.2.1)).filter
          (fun w => decide (w = kv.2.1))).length : Int) + 1) / 2) ∧
    (∀ kv ∈ rows, ∀ kv2 ∈ rows, kv2.1.2 = kv.1.2 → kv2.2.1 = kv.2.1 →
      kv2.2.2 = kv.2.2) ∧
    (∀ kv ∈ rows,
      (((rows.filter (fun kv2 => decide (kv2.1.2 = kv.1.2))).map
          (fun kv2 => kv2.2.1)).filter
        (fun w => decide (kv.2.1 < w))).length = 0 →
      (((rows.filter (fun kv2 => decide (kv2.1.2 = kv.1.2))).map
          (fun kv2 => kv2.2.1)).filter
        (fun w => decide (w = kv.2.1))).length ≤ 2 →
      kv.2.2 = 1) := by
  obtain ⟨rows0, h0, hrows⟩ := get_historical_rank_ok h
  have hformula : ∀ kv ∈ rows,
      kv.2.2 =
        (((((rows.filter (fun kv2 => decide (kv2.1.2 = kv.1.2))).map
            (fun kv2 => kv2.2.1)).filter
          (fun w => decide (kv.2.1 < w))).length : Int)) +
        (((((rows.filter (fun kv2 => decide (kv2.1.2 = kv.1.2))).map
            (fun kv2 => kv2.2.1)).filter
          (fun w => decide (w = kv.2.1))).length : Int) + 1) / 2 := by
    intro kv hkv
    rw [hrows] at hkv
    rw [List.mem_map] at hkv
    obtain ⟨kv0, hkv0, hfkv⟩ := hkv
    subst hfkv
    rw [hrows, ranked_year_values rows0 kv0.1.2]
    exact py_int_trunc_rank kv0.2 _
  have hmem_val : ∀ kv ∈ rows, kv.2.1 ∈
      ((rows.filter (fun kv2 => decide (kv2.1.2 = kv.1.2))).map
        (fun kv2 => kv2.2.1)) := by
    intro kv hkv
    exact List.mem_map_of_mem _
      (List.mem_filter.mpr ⟨hkv, by simp⟩)
  refine ⟨hformula, ?_, ?_⟩
  · intro kv hkv kv2 hkv2 hy hval
    rw [hformula kv hkv, hformula kv2 hkv2, hy, hval]
  · intro kv hkv hg he
    have he1 : 1 ≤ (((rows.filter
        (fun kv2 => decide (kv2.1.2 = kv.1.2))).map
          (fun kv2 => kv2.2.1)).filter
        (fun w => decide (w = kv.2.1))).length := by
      have : kv.2.1 ∈ ((rows.filter
          (fun kv2 => decide (kv2.1.2 = kv.1.2))).map
            (fun kv2 => kv2.2.1)).filter
          (fun w => decide (w = kv.2.1)) :=
        List.mem_filter.mpr ⟨hmem_val kv hkv, by simp⟩
      exact List.length_pos.mpr (List.ne_nil_of_mem this)
    rw [hformula kv hkv, hg]
    omega

/-- Evaluation of `get_historical_production` on the three-way-tie
table `df3`. -/
theorem get_historical_production_df3 :
    get_historical_production df3 none [1961, 2023] none =
      .ok [(("A", 1961), 5), (("B", 1961), 5), (("C", 1961), 5)] := by
  simp [get_historical_production, validate_period_list,
    validate_period_state, START_YEAR, END_YEAR, hist_body, groupSum,
    common_mask, df3, COUNTRY_GROUPS, unique_keys]

/-- Evaluation of `get_historical_rank` on `df3`: the three rows tied
at the maximum value 5 of year 1961 all receive rank 2. -/
theorem get_historical_rank_df3 :
    get_historical_rank df3 none [1961, 2023] none = .ok ranked3 := by
  rw [get_historical_rank, get_historical_production_df3]
  simp [ranked3, rank_desc_average, py_int_trunc]
  norm_num

/-- C2 counterexample: on `df3` every area holds the maximum value 5 of
year 1961, yet each receives rank 2 — not rank 1, and not the minimum
rank of the tied group (which would be 1): pandas' default `average`
method truncated, not competitive ranking. -/
theorem get_historical_rank_tie_not_min_rank :
    get_historical_rank df3 none [1961, 2023] none =
      .ok [(("A", 1961), 5, 2), (("B", 1961), 5, 2),
           (("C", 1961), 5, 2)] ∧
    (2 : Int) ≠ 1 :=
  ⟨get_historical_rank_df3, by decide⟩

/-- Witness for the amended C2 on the concrete table `df3`. -/
theorem get_historical_rank_truncated_average_rank_witness :
    get_historical_rank df3 none [1961, 2023] none = .ok ranked3 ∧
    ((∀ kv ∈ ranked3,
      kv.2.2 =
        ((((ranked3.filter (fun kv2 => decide (kv2.1.2 = kv.1.2))).map
            (fun kv2 => kv2.2.1)).filter
          (fun w => decide (kv.2.1 < w))).length : Int) +
        (((((ranked3.filter (fun kv2 => decide (kv2.1.2 = kv.1.2))).map
            (fun kv2 => kv2.2.1)).filter
          (fun w => decide (w = kv.2.1))).length : Int) + 1) / 2) ∧
    (∀ kv ∈ ranked3, ∀ kv2 ∈ ranked3,
      kv2.1.2 = kv.1.2 → kv2.2.1 = kv.2.1 → kv2.2.2 = kv.2.2) ∧
    (∀ kv ∈ ranked3,
      (((ranked3.filter (fun kv2 => decide (kv2.1.2 = kv.1.2))).map
          (fun kv2 => kv2.2.1)).filter
        (fun w => decide (kv.2.1 < w))).length = 0 →
      (((ranked3.filter (fun kv2 => decide (kv2.1.2 = kv.1.2))).map
          (fun kv2 => kv2.2.1)).filter
        (fun w => decide (w = kv.2.1))).length ≤ 2 →
      kv.2.2 = 1)) :=
  ⟨get_historical_rank_df3,
   get_historical_rank_truncated_average_rank df3 none [1961, 2023]
     none ranked3 get_historical_rank_df3⟩

/-- C4 evidence: on the table `df1` (whose only record is in 1970) the
1961 share computation of `get_report_country_on_item` reaches
`.values[0]` on an empty aligned division and raises an uncaught
`IndexError` — there is no explicit guard reporting a computation
failure to the caller. -/
theorem get_report_share_missing_year_index_error :
    get_report_share df1 "France" "Wheat" 1961 = .error .indexError := by
  simp [get_report_share, get_historical_production, validate_countries,
    pyIter, pyIsStr, pyStrVal, validate_period_list,
    validate_period_state, START_YEAR, END_YEAR, validate_product,
    hist_body, groupSum, common_mask, df1, COUNTRY_GROUPS, unique_keys,
    aligned_share_div, sort_nat, List.enum]

end FAO